import Mathlib

/-!
Shallow embedding of the multi-agent report-generation pipeline
(`multi_agent_hierarchy.py`) and proofs about its routing, state
invariants, logging and error behaviour.

The LangGraph state is a string-keyed dictionary; a key absent from the
dictionary is modelled as `none`, and Python's `state.get(k, d)` becomes
`(field).getD d`.  Each worker ("agent") is a pure function from a state
snapshot to a partial update; the engine merges the update into the state
(every present key overwrites, `messages` is appended by the add-messages
reducer), consults the router, and repeats until the router returns the
terminal sentinel `END = "__end__"` or the recursion limit is reached.
The text-generation collaborator (`llm.invoke`) is a parameter
`gen : String → String` (or `String → Except ε String` for the fallible
variant), and the timestamp taken by the compile step is a parameter
`now`.
-/

namespace MultiAgent

/-- Message roles: the seed message is a HumanMessage, workers emit
AIMessage values. -/
inductive Role where
  | human
  | ai
deriving DecidableEq

/-- One entry of the `messages` log. -/
structure Message where
  role : Role
  content : String
deriving DecidableEq

/-- `AgentState` from the source: `MessagesState` plus the report fields.
A field holds `none` when the corresponding dictionary key is absent. -/
structure AgentState where
  messages : List Message := []
  next_agent : Option String := none
  research_data : Option String := none
  market_data : Option String := none
  merged_research : Option String := none
  technical_text : Option String := none
  summary_text : Option String := none
  final_report : Option String := none
  task_complete : Option Bool := none
  current_task : Option String := none
deriving DecidableEq

/-- A worker's partial update: the dictionary it returns.  `none` means
the key is absent from the returned dictionary. -/
structure Update where
  messages : List Message := []
  next_agent : Option String := none
  research_data : Option String := none
  market_data : Option String := none
  merged_research : Option String := none
  technical_text : Option String := none
  summary_text : Option String := none
  final_report : Option String := none
  task_complete : Option Bool := none
deriving DecidableEq

/-- Overwrite semantics of the state merge: a key present in the update
replaces the current value, an absent key leaves it unchanged. -/
def overwrite (new old : Option α) : Option α :=
  match new with
  | some v => some v
  | none => old

/-- The engine's merge of a worker's partial update into the state:
`messages` is concatenated (append-only reducer), every other present
key overwrites, and no field is ever removed.  `current_task` is never
present in any worker's update, so it is left unchanged. -/
def applyUpdate (s : AgentState) (u : Update) : AgentState :=
  { s with
    messages := s.messages ++ u.messages
    next_agent := overwrite u.next_agent s.next_agent
    research_data := overwrite u.research_data s.research_data
    market_data := overwrite u.market_data s.market_data
    merged_research := overwrite u.merged_research s.merged_research
    technical_text := overwrite u.technical_text s.technical_text
    summary_text := overwrite u.summary_text s.summary_text
    final_report := overwrite u.final_report s.final_report
    task_complete := overwrite u.task_complete s.task_complete }

/-- The CEO / Supervisor worker: first-match decision table on
`merged_research`, `technical_text`, `summary_text` (Python truthiness
`bool(str)` is non-emptiness). -/
def ceo_agent (s : AgentState) : Update :=
  if s.merged_research.getD "" = "" then
    { messages := [⟨Role.ai, "🧑‍💼 CEO: Let's start research. Handing off to Research Team Leader."⟩]
      next_agent := some "research_team_leader" }
  else if s.technical_text.getD "" = "" ∨ s.summary_text.getD "" = "" then
    { messages := [⟨Role.ai, "🧑‍💼 CEO: Research complete. Handing off to Writing Team Leader."⟩]
      next_agent := some "writing_team_leader" }
  else
    { messages := [⟨Role.ai, "🧑‍💼 CEO: All tasks complete. Great job team!"⟩]
      next_agent := some "end" }

/-- Research team leader: announcement only, fixed handoff.  Note the
source uses the default "No Task Provided" for this worker's `get`. -/
def research_team_leader (s : AgentState) : Update :=
  { messages := [⟨Role.ai, "📋 Research Team Leader:\nSplitting research task:\n- Data Researcher → factual data\n- Market Researcher → market trends\nTask: " ++ s.current_task.getD "No Task Provided"⟩]
    next_agent := some "data_researcher" }

/-- Prompt built by the data researcher. -/
def dataPrompt (task : String) : String :=
  "As a Data Researcher, find factual data, statistics, and scientific info about:\n\n" ++ task ++ "\n\nKeep it concise but thorough."

/-- Prompt built by the market researcher. -/
def marketPrompt (task : String) : String :=
  "As a Market Researcher, find trends, business insights, and market data about:\n\n" ++ task ++ "\n\nKeep it concise but thorough."

/-- Prompt built by the technical writer (uses the first 2000 characters
of the merged research). -/
def techPrompt (task research : String) : String :=
  "As a Technical Writer, write a technical explanation about:\n\nTask: " ++ task ++ "\n\nBased on research:\n" ++ research.take 2000 ++ "\n"

/-- Prompt built by the summary writer. -/
def summaryPrompt (task research : String) : String :=
  "As a Summary Writer, create an executive summary for:\n\nTask: " ++ task ++ "\n\nBased on:\n" ++ research.take 2000 ++ "\n"

/-- Data researcher: one generation call, stores the full response,
logs a 400-character preview, fixed handoff. -/
def data_researcher (gen : String → String) (s : AgentState) : Update :=
  { messages := [⟨Role.ai, "🔎 Data Researcher:\n" ++ (gen (dataPrompt (s.current_task.getD ""))).take 400 ++ "..."⟩]
    research_data := some (gen (dataPrompt (s.current_task.getD "")))
    next_agent := some "market_researcher" }

/-- Market researcher: one generation call, stores the full response,
logs a 400-character preview, fixed handoff. -/
def market_researcher (gen : String → String) (s : AgentState) : Update :=
  { messages := [⟨Role.ai, "📈 Market Researcher:\n" ++ (gen (marketPrompt (s.current_task.getD ""))).take 400 ++ "..."⟩]
    market_data := some (gen (marketPrompt (s.current_task.getD "")))
    next_agent := some "merge_research" }

/-- The merged-research text: both inputs concatenated under labeled
headers (the f-string in `merge_research`). -/
def mergedStr (r m : String) : String :=
  "**DATA RESEARCH:**\n" ++ r ++ "\n\n**MARKET RESEARCH:**\n" ++ m

/-- Merge step: concatenates the two research fields under labeled
headers, emits one fixed log message, routes back to the supervisor. -/
def merge_research (s : AgentState) : Update :=
  { messages := [⟨Role.ai, "✅ Research Team Leader: Merged research data."⟩]
    merged_research := some (mergedStr (s.research_data.getD "") (s.market_data.getD ""))
    next_agent := some "ceo_agent" }

/-- Writing team leader: announcement only, fixed handoff. -/
def writing_team_leader (_ : AgentState) : Update :=
  { messages := [⟨Role.ai, "📝 Writing Team Leader: Assigning tasks to Technical Writer and Summary Writer."⟩]
    next_agent := some "technical_writer" }

/-- Technical writer: one generation call on `techPrompt`, stores the
full response, logs a preview, fixed handoff. -/
def technical_writer (gen : String → String) (s : AgentState) : Update :=
  { messages := [⟨Role.ai, "🧑‍💻 Technical Writer:\n" ++ (gen (techPrompt (s.current_task.getD "") (s.merged_research.getD ""))).take 400 ++ "..."⟩]
    technical_text := some (gen (techPrompt (s.current_task.getD "") (s.merged_research.getD "")))
    next_agent := some "summary_writer" }

/-- Summary writer: one generation call on `summaryPrompt`, stores the
full response, logs a preview, fixed handoff. -/
def summary_writer (gen : String → String) (s : AgentState) : Update :=
  { messages := [⟨Role.ai, "📝 Summary Writer:\n" ++ (gen (summaryPrompt (s.current_task.getD "") (s.merged_research.getD ""))).take 400 ++ "..."⟩]
    summary_text := some (gen (summaryPrompt (s.current_task.getD "") (s.merged_research.getD "")))
    next_agent := some "compile_report" }

/-- The separator line of the report template: 57 equals signs. -/
def eqLine : String :=
  String.mk (List.replicate 57 '=')

/-- The report template rendered by the compile step.  Note the template
literal opens with a newline (the f-string starts on the line after the
opening quotes) and closes with a trailing newline. -/
def reportText (now task tech summ : String) : String :=
  "\n📄 FINAL REPORT\n" ++ eqLine ++ "\nGenerated: " ++ now ++ "\nTopic: " ++ task ++ "\n" ++ eqLine ++ "\n\n**Technical Details:**\n" ++ tech ++ "\n\n**Executive Summary:**\n" ++ summ ++ "\n\n" ++ eqLine ++ "\nCompiled by Multi-Agent AI System powered by Groq\n"

/-- Compile step: renders the template, sets `task_complete`, routes to
the supervisor. -/
def compile_report (now : String) (s : AgentState) : Update :=
  { messages := [⟨Role.ai, "✅ Writing Team Leader: Final report compiled."⟩]
    final_report := some (reportText now (s.current_task.getD "") (s.technical_text.getD "") (s.summary_text.getD ""))
    task_complete := some true
    next_agent := some "ceo_agent" }

/-- LangGraph's terminal sentinel (`langgraph.graph.END`). -/
def END : String := "__end__"

/-- The router consulted after every worker: terminal once
`task_complete` is truthy, otherwise the stored `next_agent`, defaulting
to the entry worker `"ceo_agent"` when the key is absent. -/
def router (s : AgentState) : String :=
  if s.task_complete.getD false then END else s.next_agent.getD "ceo_agent"

/-- The nine node names registered with `workflow.add_node`. -/
def workerNames : List String :=
  ["ceo_agent", "research_team_leader", "data_researcher", "market_researcher",
   "merge_research", "writing_team_leader", "technical_writer", "summary_writer",
   "compile_report"]

/-- Dispatch of a node name to its handler: the conditional-edge mapping
registered for every node (all nine workers plus `END`); an unknown name
is a routing error (`none`). -/
def runNode (gen : String → String) (now node : String) (s : AgentState) : Option Update :=
  if node = "ceo_agent" then some (ceo_agent s)
  else if node = "research_team_leader" then some (research_team_leader s)
  else if node = "data_researcher" then some (data_researcher gen s)
  else if node = "market_researcher" then some (market_researcher gen s)
  else if node = "merge_research" then some (merge_research s)
  else if node = "writing_team_leader" then some (writing_team_leader s)
  else if node = "technical_writer" then some (technical_writer gen s)
  else if node = "summary_writer" then some (summary_writer gen s)
  else if node = "compile_report" then some (compile_report now s)
  else none

/-- The engine loop: run the current node, merge its update, consult the
router; stop with the final state when the router returns `END`, abort
with `none` on an unknown node or when the step bound runs out. -/
def runLoop (gen : String → String) (now : String) : Nat → String → AgentState → Option AgentState
  | 0, _, _ => none
  | Nat.succ n, node, s =>
    match runNode gen now node s with
    | none => none
    | some u =>
      let s2 := applyUpdate s u
      if router s2 = END then some s2 else runLoop gen now n (router s2) s2

/-- LangGraph's default recursion limit (super-step bound). -/
def recursionLimit : Nat := 25

/-- The initial state passed to `graph.invoke`: the seed human message
plus `current_task`. -/
def initState (task : String) : AgentState :=
  { messages := [⟨Role.human, task⟩], current_task := some task }

/-- `graph.invoke`: run from the entry point `"ceo_agent"`. -/
def run (gen : String → String) (now task : String) : Option AgentState :=
  runLoop gen now recursionLimit "ceo_agent" (initState task)

/-- The sequence of node names the engine actually executes. -/
def visitedLoop (gen : String → String) (now : String) : Nat → String → AgentState → List String
  | 0, _, _ => []
  | Nat.succ n, node, s =>
    match runNode gen now node s with
    | none => []
    | some u =>
      let s2 := applyUpdate s u
      if router s2 = END then [node] else node :: visitedLoop gen now n (router s2) s2

/-- Worker visitation sequence of a full run. -/
def visited (gen : String → String) (now task : String) : List String :=
  visitedLoop gen now recursionLimit "ceo_agent" (initState task)

/-- All state snapshots of a run: the initial state and the state after
each merged worker update. -/
def traceLoop (gen : String → String) (now : String) : Nat → String → AgentState → List AgentState
  | 0, _, s => [s]
  | Nat.succ n, node, s =>
    match runNode gen now node s with
    | none => [s]
    | some u =>
      let s2 := applyUpdate s u
      if router s2 = END then [s, s2] else s :: traceLoop gen now n (router s2) s2

/-- Reachable states of a full run. -/
def stateTrace (gen : String → String) (now task : String) : List AgentState :=
  traceLoop gen now recursionLimit "ceo_agent" (initState task)

/-- Substring containment (used to state report-content properties). -/
def containsStr (s sub : String) : Prop :=
  ∃ a b, s = a ++ sub ++ b

/-- Prefix containment on strings. -/
def beginsWith (s p : String) : Prop :=
  ∃ rest, s = p ++ rest

/-- The 11-step happy-path visitation sequence claimed by the spec
(§4.9): the Supervisor revisited after Compile, before terminal. -/
def claimedVisits : List String :=
  ["ceo_agent", "research_team_leader", "data_researcher", "market_researcher",
   "merge_research", "ceo_agent", "writing_team_leader", "technical_writer",
   "summary_writer", "compile_report", "ceo_agent"]

/-- The visitation sequence the engine actually executes on the happy
path: ten workers, terminal right after Compile. -/
def happyVisits : List String :=
  ["ceo_agent", "research_team_leader", "data_researcher", "market_researcher",
   "merge_research", "ceo_agent", "writing_team_leader", "technical_writer",
   "summary_writer", "compile_report"]

/-- Data researcher against a fallible collaborator: `llm.invoke` may
raise; the worker has no try/except, so a failure propagates unchanged. -/
def data_researcherE (gen : String → Except ε String) (s : AgentState) : Except ε Update :=
  match gen (dataPrompt (s.current_task.getD "")) with
  | Except.error e => Except.error e
  | Except.ok result =>
    Except.ok { messages := [⟨Role.ai, "🔎 Data Researcher:\n" ++ result.take 400 ++ "..."⟩]
                research_data := some result
                next_agent := some "market_researcher" }

/-- Market researcher against a fallible collaborator. -/
def market_researcherE (gen : String → Except ε String) (s : AgentState) : Except ε Update :=
  match gen (marketPrompt (s.current_task.getD "")) with
  | Except.error e => Except.error e
  | Except.ok result =>
    Except.ok { messages := [⟨Role.ai, "📈 Market Researcher:\n" ++ result.take 400 ++ "..."⟩]
                market_data := some result
                next_agent := some "merge_research" }

/-- Technical writer against a fallible collaborator. -/
def technical_writerE (gen : String → Except ε String) (s : AgentState) : Except ε Update :=
  match gen (techPrompt (s.current_task.getD "") (s.merged_research.getD "")) with
  | Except.error e => Except.error e
  | Except.ok result =>
    Except.ok { messages := [⟨Role.ai, "🧑‍💻 Technical Writer:\n" ++ result.take 400 ++ "..."⟩]
                technical_text := some result
                next_agent := some "summary_writer" }

/-- Summary writer against a fallible collaborator. -/
def summary_writerE (gen : String → Except ε String) (s : AgentState) : Except ε Update :=
  match gen (summaryPrompt (s.current_task.getD "") (s.merged_research.getD "")) with
  | Except.error e => Except.error e
  | Except.ok result =>
    Except.ok { messages := [⟨Role.ai, "📝 Summary Writer:\n" ++ result.take 400 ++ "..."⟩]
                summary_text := some result
                next_agent := some "compile_report" }

/-- Node dispatch with a fallible collaborator; the workers that do not
call the collaborator cannot fail. -/
def runNodeE (gen : String → Except ε String) (now node : String) (s : AgentState) :
    Option (Except ε Update) :=
  if node = "ceo_agent" then some (Except.ok (ceo_agent s))
  else if node = "research_team_leader" then some (Except.ok (research_team_leader s))
  else if node = "data_researcher" then some (data_researcherE gen s)
  else if node = "market_researcher" then some (market_researcherE gen s)
  else if node = "merge_research" then some (Except.ok (merge_research s))
  else if node = "writing_team_leader" then some (Except.ok (writing_team_leader s))
  else if node = "technical_writer" then some (technical_writerE gen s)
  else if node = "summary_writer" then some (summary_writerE gen s)
  else if node = "compile_report" then some (Except.ok (compile_report now s))
  else none

/-- Engine loop with a fallible collaborator: a raised generation error
aborts the loop immediately and propagates to the caller carrying no
state (the Python exception unwinds out of `graph.invoke`). -/
def runLoopE (gen : String → Except ε String) (now : String) :
    Nat → String → AgentState → Except ε (Option AgentState)
  | 0, _, _ => Except.ok none
  | Nat.succ n, node, s =>
    match runNodeE gen now node s with
    | none => Except.ok none
    | some (Except.error e) => Except.error e
    | some (Except.ok u) =>
      let s2 := applyUpdate s u
      if router s2 = END then Except.ok (some s2) else runLoopE gen now n (router s2) s2

/-- `graph.invoke` with a fallible collaborator. -/
def runE (gen : String → Except ε String) (now task : String) : Except ε (Option AgentState) :=
  runLoopE gen now recursionLimit "ceo_agent" (initState task)

set_option maxRecDepth 10000

/-- Appending to a non-empty string yields a non-empty string. -/
theorem append_ne_empty_left (a b : String) (h : a ≠ "") : a ++ b ≠ "" := by
  intro hc
  apply h
  have hd := congrArg String.data hc
  rw [String.data_append] at hd
  have hnil : a.data ++ b.data = [] := by simpa using hd
  exact String.ext (by simpa using (List.append_eq_nil.mp hnil).1)

/-- The merged-research text is non-empty whatever the inputs: it always
carries its two literal headers. -/
theorem mergedStr_ne_empty (r m : String) : mergedStr r m ≠ "" := by
  unfold mergedStr
  exact append_ne_empty_left _ _ (append_ne_empty_left _ _ (append_ne_empty_left _ _ (by decide)))

/-- The rendered report is non-empty whatever the substituted values. -/
theorem reportText_ne_empty (now task tech summ : String) :
    reportText now task tech summ ≠ "" := by
  unfold reportText
  repeat apply append_ne_empty_left
  decide

/-- The rendered report contains the task string (the Topic line). -/
theorem reportText_contains_task (now task tech summ : String) :
    containsStr (reportText now task tech summ) task :=
  ⟨"\n📄 FINAL REPORT\n" ++ eqLine ++ "\nGenerated: " ++ now ++ "\nTopic: ",
   "\n" ++ eqLine ++ "\n\n**Technical Details:**\n" ++ tech ++ "\n\n**Executive Summary:**\n" ++ summ ++ "\n\n" ++ eqLine ++ "\nCompiled by Multi-Agent AI System powered by Groq\n",
   by simp [reportText, String.append_assoc]⟩

/-- The rendered report contains the technical text. -/
theorem reportText_contains_tech (now task tech summ : String) :
    containsStr (reportText now task tech summ) tech :=
  ⟨"\n📄 FINAL REPORT\n" ++ eqLine ++ "\nGenerated: " ++ now ++ "\nTopic: " ++ task ++ "\n" ++ eqLine ++ "\n\n**Technical Details:**\n",
   "\n\n**Executive Summary:**\n" ++ summ ++ "\n\n" ++ eqLine ++ "\nCompiled by Multi-Agent AI System powered by Groq\n",
   by simp [reportText, String.append_assoc]⟩

/-- The rendered report contains the summary text. -/
theorem reportText_contains_summ (now task tech summ : String) :
    containsStr (reportText now task tech summ) summ :=
  ⟨"\n📄 FINAL REPORT\n" ++ eqLine ++ "\nGenerated: " ++ now ++ "\nTopic: " ++ task ++ "\n" ++ eqLine ++ "\n\n**Technical Details:**\n" ++ tech ++ "\n\n**Executive Summary:**\n",
   "\n\n" ++ eqLine ++ "\nCompiled by Multi-Agent AI System powered by Groq\n",
   by simp [reportText, String.append_assoc]⟩

/-- The rendered report opens with a newline followed by the heading
line, not with the heading itself. -/
theorem reportText_begins (now task tech summ : String) :
    beginsWith (reportText now task tech summ) "\n📄 FINAL REPORT\n" :=
  ⟨eqLine ++ "\nGenerated: " ++ now ++ "\nTopic: " ++ task ++ "\n" ++ eqLine ++ "\n\n**Technical Details:**\n" ++ tech ++ "\n\n**Executive Summary:**\n" ++ summ ++ "\n\n" ++ eqLine ++ "\nCompiled by Multi-Agent AI System powered by Groq\n",
   by simp [reportText, String.append_assoc]⟩

/-- A string strictly shorter than `sub` cannot contain `sub`. -/
theorem not_contains_of_short (s sub : String) (h : s.length < sub.length) :
    ¬ containsStr s sub := by
  rintro ⟨a, b, hab⟩
  have hl := congrArg String.length hab
  rw [String.length_append, String.length_append] at hl
  omega

/-- Merging with an empty data-research field yields the two headers
with an empty data section, followed by the market text. -/
theorem mergedStr_empty_left (m : String) :
    mergedStr "" m = "**DATA RESEARCH:**\n\n\n**MARKET RESEARCH:**\n" ++ m := by
  apply String.ext
  simp [mergedStr, String.data_append]

/-- C1: the router is total over states: whenever `task_complete` is
truthy it returns the terminal sentinel regardless of every other field
(it reads nothing but `task_complete` and `next_agent`), and otherwise
it returns the stored `next_worker`, defaulting to the entry worker
`"ceo_agent"` (the Supervisor) when the key is unset. -/
theorem c1_router_decide :
    (∀ s : AgentState, s.task_complete.getD false = true → router s = END) ∧
    (∀ s : AgentState, s.task_complete.getD false = false →
      router s = s.next_agent.getD "ceo_agent") ∧
    (∀ s t : AgentState, s.task_complete = t.task_complete →
      s.next_agent = t.next_agent → router s = router t) := by
  refine ⟨fun s h => by simp [router, h], fun s h => by simp [router, h],
    fun s t h1 h2 => by simp [router, h1, h2]⟩

/-- C1 witness: the router evaluated at concrete states, one with
`task_complete` set and unrelated fields populated, one without. -/
theorem c1_router_decide_witness :
    router { task_complete := some true, final_report := some "r", next_agent := some "data_researcher" } = END ∧
    router { next_agent := some "data_researcher" } = "data_researcher" := by
  refine ⟨c1_router_decide.1 _ (by decide), ?_⟩
  have h := c1_router_decide.2.1 { next_agent := some "data_researcher" } (by decide)
  simpa using h

/-- C2 counterexample: on a concrete happy-path run the visitation
sequence differs from the 11-step ordering claimed by the spec — the
Supervisor is never revisited after Compile, because the router's
`task_complete` rule fires before any further node runs. -/
theorem c2_claimed_visits_cex :
    visited (fun _ => "STUB") "2025-01-01 10:00" "What are the benefits and risks of AI in healthcare?" ≠
      claimedVisits := by decide

/-- C2 amended: for every collaborator and every non-empty task, the
visitation sequence is exactly the ten-step ordering Supervisor,
Research Team Leader, Data Researcher, Market Researcher, Merge,
Supervisor, Writing Team Leader, Technical Writer, Summary Writer,
Compile, after which the router returns the terminal sentinel. -/
theorem c2_happy_visits (gen : String → String) (now task : String) (h : task ≠ "") :
    visited gen now task = happyVisits ∧
    ∃ s, run gen now task = some s ∧ router s = END := by
  constructor
  · simp [visited, visitedLoop, recursionLimit, runNode, router, applyUpdate, initState,
      ceo_agent, research_team_leader, data_researcher, market_researcher, merge_research,
      writing_team_leader, technical_writer, summary_writer, compile_report,
      overwrite, END, mergedStr_ne_empty, happyVisits]
  · simp [run, runLoop, recursionLimit, runNode, router, applyUpdate, initState,
      ceo_agent, research_team_leader, data_researcher, market_researcher, merge_research,
      writing_team_leader, technical_writer, summary_writer, compile_report,
      overwrite, END, mergedStr_ne_empty]

/-- C2 witness: the amended visitation sequence on a concrete run. -/
theorem c2_happy_visits_witness :
    ("What are the benefits and risks of AI in healthcare?" : String) ≠ "" ∧
    (visited (fun _ => "STUB") "2025-01-01 10:00" "What are the benefits and risks of AI in healthcare?" = happyVisits ∧
     ∃ s, run (fun _ => "STUB") "2025-01-01 10:00" "What are the benefits and risks of AI in healthcare?" = some s ∧
       router s = END) :=
  ⟨by decide, c2_happy_visits _ _ _ (by decide)⟩

/-- C3: the Supervisor's decision table evaluated on all three rows.
Rows one and two behave as claimed (one log message, no other state
mutation), but the otherwise branch emits the literal `"end"`, which is
not the terminal signal: LangGraph's sentinel is `"__end__"`, and
`"end"` is not a registered worker either. -/
theorem c3_ceo_decision_eval :
    ceo_agent { merged_research := none } =
      { messages := [⟨Role.ai, "🧑‍💼 CEO: Let's start research. Handing off to Research Team Leader."⟩]
        next_agent := some "research_team_leader" } ∧
    ceo_agent { merged_research := some "MERGED" } =
      { messages := [⟨Role.ai, "🧑‍💼 CEO: Research complete. Handing off to Writing Team Leader."⟩]
        next_agent := some "writing_team_leader" } ∧
    ceo_agent { merged_research := some "MERGED", technical_text := some "TECH", summary_text := some "SUM" } =
      { messages := [⟨Role.ai, "🧑‍💼 CEO: All tasks complete. Great job team!"⟩]
        next_agent := some "end" } ∧
    "end" ≠ END ∧ "end" ∉ workerNames := by decide

/-- C4 counterexample: the rendered report does not begin with the
heading line — the template literal opens with a newline. -/
theorem c4_report_heading_cex :
    ¬ beginsWith ((compile_report "2025-01-01 10:00"
        { current_task := some "topic", technical_text := some "TECH", summary_text := some "SUM" }).final_report.getD "")
      "📄 FINAL REPORT" := by
  rintro ⟨rest, h⟩
  have h3 : (String.data ("📄 FINAL REPORT" ++ rest)).head? = some '📄' := by
    rw [String.data_append]
    rfl
  rw [← h] at h3
  have h4 : (String.data ((compile_report "2025-01-01 10:00"
      { current_task := some "topic", technical_text := some "TECH", summary_text := some "SUM" }).final_report.getD "")).head? = some '\n' := by decide
  rw [h4] at h3
  exact absurd h3 (by decide)

/-- C4 amended: Compile writes the fixed-template report (which begins
with a newline followed by the heading line) containing the task, the
technical text and the summary text, sets `task_complete`, routes to the
Supervisor, and on every successful run the final state carries a
non-empty report with `task_complete` true. -/
theorem c4_compile_contract (now : String) :
    (∀ s : AgentState,
      (compile_report now s).task_complete = some true ∧
      (compile_report now s).next_agent = some "ceo_agent" ∧
      (compile_report now s).final_report =
        some (reportText now (s.current_task.getD "") (s.technical_text.getD "") (s.summary_text.getD "")) ∧
      ∀ r, (compile_report now s).final_report = some r →
        r ≠ "" ∧ beginsWith r "\n📄 FINAL REPORT\n" ∧
        containsStr r (s.current_task.getD "") ∧
        containsStr r (s.technical_text.getD "") ∧
        containsStr r (s.summary_text.getD "")) ∧
    (∀ (gen : String → String) (task : String) (fs : AgentState),
      run gen now task = some fs → fs.final_report.getD "" ≠ "" ∧ fs.task_complete = some true) := by
  constructor
  · intro s
    refine ⟨rfl, rfl, rfl, ?_⟩
    intro r hr
    have hr2 : reportText now (s.current_task.getD "") (s.technical_text.getD "") (s.summary_text.getD "") = r := by
      simpa [compile_report] using hr
    subst hr2
    exact ⟨reportText_ne_empty _ _ _ _, reportText_begins _ _ _ _, reportText_contains_task _ _ _ _,
      reportText_contains_tech _ _ _ _, reportText_contains_summ _ _ _ _⟩
  · intro gen task fs hfs
    simp [run, runLoop, recursionLimit, runNode, router, applyUpdate, initState,
      ceo_agent, research_team_leader, data_researcher, market_researcher, merge_research,
      writing_team_leader, technical_writer, summary_writer, compile_report,
      overwrite, END, mergedStr_ne_empty] at hfs
    cases hfs
    simp [reportText_ne_empty]

/-- C4 witness: the compile contract at a concrete state. -/
theorem c4_compile_contract_witness :
    (compile_report "2025-01-01 10:00" { current_task := some "topic" }).task_complete = some true ∧
    ((compile_report "2025-01-01 10:00" { current_task := some "topic" }).final_report.getD "" ≠ "") :=
  ⟨((c4_compile_contract "2025-01-01 10:00").1 { current_task := some "topic" }).1, by
    have h := ((c4_compile_contract "2025-01-01 10:00").1 { current_task := some "topic" }).2.2.2
      (reportText "2025-01-01 10:00" "topic" "" "") rfl
    simpa using h.1⟩

/-- C5 counterexample: on the degraded input (empty `research_data`) the
Merge worker's entire output is the same fixed success log message, the
merged text and the routing hint — the log message is identical to the
one emitted in the complete case, so nothing flags incompleteness, and
the returned update carries no warning of any kind. -/
theorem c5_merge_silent_degradation_cex :
    merge_research { research_data := some "", market_data := some "market X" } =
      { messages := [⟨Role.ai, "✅ Research Team Leader: Merged research data."⟩]
        merged_research := some "**DATA RESEARCH:**\n\n\n**MARKET RESEARCH:**\nmarket X"
        next_agent := some "ceo_agent" } ∧
    (merge_research { research_data := some "", market_data := some "market X" }).messages =
      (merge_research { research_data := some "data OK", market_data := some "market X" }).messages := by
  decide

/-- C5 amended: Merge always concatenates both fields under labeled
headers and routes to the Supervisor; with an empty data input it still
proceeds, producing a non-empty merged text that contains the market
text after an empty data section — but it emits the fixed log message of
the complete case and surfaces no warning. -/
theorem c5_merge_degraded (s : AgentState) (m : String) :
    merge_research s =
      { messages := [⟨Role.ai, "✅ Research Team Leader: Merged research data."⟩]
        merged_research := some (mergedStr (s.research_data.getD "") (s.market_data.getD ""))
        next_agent := some "ceo_agent" } ∧
    mergedStr "" m ≠ "" ∧
    containsStr (mergedStr "" m) m ∧
    mergedStr "" m = "**DATA RESEARCH:**\n\n\n**MARKET RESEARCH:**\n" ++ m := by
  refine ⟨rfl, mergedStr_ne_empty _ _,
    ⟨"**DATA RESEARCH:**\n\n\n**MARKET RESEARCH:**\n", "", ?_⟩, mergedStr_empty_left m⟩
  rw [mergedStr_empty_left]
  simp

/-- C6: for every non-empty task and every (deterministic, stubbed)
collaborator, the run terminates inside the step bound and the final
report contains the literal task string and both writer-stage outputs. -/
theorem c6_stub_run_report (gen : String → String) (now task : String) (h : task ≠ "") :
    ∃ s, run gen now task = some s ∧
      s.task_complete = some true ∧
      (visited gen now task).length < recursionLimit ∧
      s.final_report = some (reportText now task
        (gen (techPrompt task (mergedStr (gen (dataPrompt task)) (gen (marketPrompt task)))))
        (gen (summaryPrompt task (mergedStr (gen (dataPrompt task)) (gen (marketPrompt task)))))) ∧
      ∀ r, s.final_report = some r →
        containsStr r task ∧
        containsStr r (gen (techPrompt task (mergedStr (gen (dataPrompt task)) (gen (marketPrompt task))))) ∧
        containsStr r (gen (summaryPrompt task (mergedStr (gen (dataPrompt task)) (gen (marketPrompt task))))) := by
  simp [run, runLoop, visited, visitedLoop, recursionLimit, runNode, router, applyUpdate, initState,
    ceo_agent, research_team_leader, data_researcher, market_researcher, merge_research,
    writing_team_leader, technical_writer, summary_writer, compile_report,
    overwrite, END, mergedStr_ne_empty,
    reportText_contains_task, reportText_contains_tech, reportText_contains_summ]

/-- C6 witness: the termination-and-content property at the concrete
scenario task with a concrete stub. -/
theorem c6_stub_run_report_witness :
    ("benefits and risks of AI in healthcare" : String) ≠ "" ∧
    (∃ s, run (fun _ => "STUB") "2025-01-01 10:00" "benefits and risks of AI in healthcare" = some s ∧
      s.task_complete = some true ∧
      (visited (fun _ => "STUB") "2025-01-01 10:00" "benefits and risks of AI in healthcare").length < recursionLimit ∧
      s.final_report = some (reportText "2025-01-01 10:00" "benefits and risks of AI in healthcare"
        ((fun _ => "STUB") (techPrompt "benefits and risks of AI in healthcare" (mergedStr ((fun _ => "STUB") (dataPrompt "benefits and risks of AI in healthcare")) ((fun _ => "STUB") (marketPrompt "benefits and risks of AI in healthcare")))))
        ((fun _ => "STUB") (summaryPrompt "benefits and risks of AI in healthcare" (mergedStr ((fun _ => "STUB") (dataPrompt "benefits and risks of AI in healthcare")) ((fun _ => "STUB") (marketPrompt "benefits and risks of AI in healthcare")))))) ∧
      ∀ r, s.final_report = some r →
        containsStr r "benefits and risks of AI in healthcare" ∧
        containsStr r ((fun _ => "STUB") (techPrompt "benefits and risks of AI in healthcare" (mergedStr ((fun _ => "STUB") (dataPrompt "benefits and risks of AI in healthcare")) ((fun _ => "STUB") (marketPrompt "benefits and risks of AI in healthcare"))))) ∧
        containsStr r ((fun _ => "STUB") (summaryPrompt "benefits and risks of AI in healthcare" (mergedStr ((fun _ => "STUB") (dataPrompt "benefits and risks of AI in healthcare")) ((fun _ => "STUB") (marketPrompt "benefits and risks of AI in healthcare")))))) :=
  ⟨by decide, c6_stub_run_report _ _ _ (by decide)⟩

/-- C7 counterexample: with a collaborator that returns the empty
string, a reachable state (the one after Merge) has a non-empty
`merged_research` — the two literal headers — while `research_data` and
`market_data` are both empty. -/
theorem c7_merged_nonempty_cex :
    ¬ (∀ s ∈ stateTrace (fun _ => "") "2025-01-01 10:00" "healthcare AI",
        s.merged_research.getD "" ≠ "" →
          s.research_data.getD "" ≠ "" ∧ s.market_data.getD "" ≠ "") := by decide

/-- C7 amended: provided the collaborator's responses to the two
researcher prompts are non-empty, every reachable state with a non-empty
`merged_research` also has non-empty `research_data` and `market_data`
(the merged field stays empty until the Merge step has consumed both
researcher outputs). -/
theorem c7_merged_invariant (gen : String → String) (now task : String)
    (hd : gen (dataPrompt task) ≠ "") (hm : gen (marketPrompt task) ≠ "") :
    ∀ s ∈ stateTrace gen now task,
      s.merged_research.getD "" ≠ "" →
        s.research_data.getD "" ≠ "" ∧ s.market_data.getD "" ≠ "" := by
  simp [stateTrace, traceLoop, recursionLimit, runNode, router, applyUpdate, initState,
    ceo_agent, research_team_leader, data_researcher, market_researcher, merge_research,
    writing_team_leader, technical_writer, summary_writer, compile_report,
    overwrite, END, mergedStr_ne_empty, hd, hm]

/-- C7 witness: the invariant on a concrete run with a non-empty stub. -/
theorem c7_merged_invariant_witness :
    ((fun _ => "X") (dataPrompt "healthcare AI") : String) ≠ "" ∧
    ((fun _ => "X") (marketPrompt "healthcare AI") : String) ≠ "" ∧
    (∀ s ∈ stateTrace (fun _ => "X") "2025-01-01 10:00" "healthcare AI",
      s.merged_research.getD "" ≠ "" →
        s.research_data.getD "" ≠ "" ∧ s.market_data.getD "" ≠ "") :=
  ⟨by decide, by decide, c7_merged_invariant _ _ _ (by decide) (by decide)⟩

/-- C8 counterexample: the value emitted by the Supervisor's otherwise
branch is `"end"`, which neither names one of the nine registered
workers nor equals the terminal sentinel `"__end__"`. -/
theorem c8_supervisor_sentinel_cex :
    ¬ (((ceo_agent { merged_research := some "done", technical_text := some "t", summary_text := some "s" }).next_agent.getD "") ∈ workerNames ∨
       ((ceo_agent { merged_research := some "done", technical_text := some "t", summary_text := some "s" }).next_agent.getD "") = END) := by
  decide

/-- C8 amended: in every reachable state of every run from a valid
initial state, `next_agent` is either unset or names one of the nine
registered workers (the Supervisor's otherwise branch, whose value
satisfies neither disjunct, is never exercised). -/
theorem c8_next_agent_registered (gen : String → String) (now task : String) :
    ∀ s ∈ stateTrace gen now task,
      s.next_agent = none ∨ (s.next_agent.getD "") ∈ workerNames := by
  simp [stateTrace, traceLoop, recursionLimit, runNode, router, applyUpdate, initState,
    ceo_agent, research_team_leader, data_researcher, market_researcher, merge_research,
    writing_team_leader, technical_writer, summary_writer, compile_report,
    overwrite, END, mergedStr_ne_empty, workerNames]

/-- C8 witness: the registered-worker invariant at a concrete reachable
state of a concrete run. -/
theorem c8_next_agent_registered_witness :
    (initState "healthcare AI") ∈ stateTrace (fun _ => "STUB") "2025-01-01 10:00" "healthcare AI" ∧
    ((initState "healthcare AI").next_agent = none ∨
      ((initState "healthcare AI").next_agent.getD "") ∈ workerNames) :=
  ⟨by decide, c8_next_agent_registered (fun _ => "STUB") "2025-01-01 10:00" "healthcare AI" _ (by decide)⟩

/-- C9 counterexample: after a concrete happy-path run the log holds 11
entries while the engine performed 10 worker invocations — the log
length is the invocation count plus the seed message, not equal to it,
and the baseline sequence has 10 invocations, not 11. -/
theorem c9_log_length_cex :
    ((run (fun _ => "STUB") "2025-01-01 10:00" "healthcare AI").map fun s => s.messages.length) = some 11 ∧
    (visited (fun _ => "STUB") "2025-01-01 10:00" "healthcare AI").length = 10 ∧
    (11 : Nat) ≠ 10 := by decide

/-- C9 amended: the log is append-only and grows by exactly one entry at
every step; after a happy-path run its length is the number of worker
invocations plus one (the seed message), namely 11 = 10 + 1, and every
entry is non-empty. -/
theorem c9_messages_append_only (gen : String → String) (now task : String) (h : task ≠ "") :
    List.Chain' (fun a b => a.messages <+: b.messages ∧ a.messages.length + 1 = b.messages.length)
      (stateTrace gen now task) ∧
    (∀ s, run gen now task = some s →
      s.messages.length = (visited gen now task).length + 1 ∧ s.messages.length = 11 ∧
      ∀ msg ∈ s.messages, msg.content ≠ "") := by
  constructor
  · simp [stateTrace, traceLoop, recursionLimit, runNode, router, applyUpdate, initState,
      ceo_agent, research_team_leader, data_researcher, market_researcher, merge_research,
      writing_team_leader, technical_writer, summary_writer, compile_report,
      overwrite, END, mergedStr_ne_empty, List.chain'_cons, List.cons_prefix_cons,
      List.nil_prefix]
  · intro s hs
    simp [run, runLoop, visited, visitedLoop, recursionLimit, runNode, router, applyUpdate, initState,
      ceo_agent, research_team_leader, data_researcher, market_researcher, merge_research,
      writing_team_leader, technical_writer, summary_writer, compile_report,
      overwrite, END, mergedStr_ne_empty] at hs
    cases hs
    simp [visited, visitedLoop, recursionLimit, runNode, router, applyUpdate, initState,
      ceo_agent, research_team_leader, data_researcher, market_researcher, merge_research,
      writing_team_leader, technical_writer, summary_writer, compile_report,
      overwrite, END, mergedStr_ne_empty, h, append_ne_empty_left]

/-- C9 witness: the amended log property on a concrete run. -/
theorem c9_messages_append_only_witness :
    ("healthcare AI" : String) ≠ "" ∧
    (List.Chain' (fun a b => a.messages <+: b.messages ∧ a.messages.length + 1 = b.messages.length)
      (stateTrace (fun _ => "STUB") "2025-01-01 10:00" "healthcare AI") ∧
    (∀ s, run (fun _ => "STUB") "2025-01-01 10:00" "healthcare AI" = some s →
      s.messages.length = (visited (fun _ => "STUB") "2025-01-01 10:00" "healthcare AI").length + 1 ∧
      s.messages.length = 11 ∧
      ∀ msg ∈ s.messages, msg.content ≠ "")) :=
  ⟨by decide, c9_messages_append_only _ _ _ (by decide)⟩

/-- C10 counterexample: when the collaborator fails, the run aborts with
the collaborator's error propagated verbatim — an error value that does
not carry the worker name (it is even too short to contain it), and the
aborting result carries no partial state. -/
theorem c10_raw_error_cex :
    runE (fun _ => (Except.error "quota exceeded" : Except String String)) "2025-01-01 10:00" "TASK-42" =
      Except.error "quota exceeded" ∧
    ¬ containsStr "quota exceeded" "data_researcher" := by
  constructor
  · rfl
  · exact not_contains_of_short _ _ (by decide)

/-- C10 amended: a failure of the generation call inside the Data
Researcher or the Market Researcher propagates unchanged (no wrapping
error type, no worker name or task id attached, no retry), and a failure
at the data-research step aborts the whole run immediately with the raw
error and no final state. -/
theorem c10_generation_error_propagation {ε : Type} (gen : String → Except ε String)
    (now task : String) (e : ε) :
    (∀ s : AgentState, gen (dataPrompt (s.current_task.getD "")) = Except.error e →
        data_researcherE gen s = Except.error e) ∧
    (∀ s : AgentState, gen (marketPrompt (s.current_task.getD "")) = Except.error e →
        market_researcherE gen s = Except.error e) ∧
    (gen (dataPrompt task) = Except.error e → runE gen now task = Except.error e) := by
  refine ⟨fun s h => by simp [data_researcherE, h], fun s h => by simp [market_researcherE, h],
    fun h => ?_⟩
  simp [runE, runLoopE, recursionLimit, runNodeE, ceo_agent, research_team_leader,
    data_researcherE, router, applyUpdate, initState, overwrite, END, h]

/-- C10 witness: a concrete failing collaborator aborts the run with its
own error value. -/
theorem c10_generation_error_propagation_witness :
    ((fun _ => (Except.error "boom" : Except String String)) (dataPrompt "t") = Except.error "boom") ∧
    runE (fun _ => (Except.error "boom" : Except String String)) "2025-01-01 10:00" "t" =
      Except.error "boom" :=
  ⟨rfl, (c10_generation_error_propagation (fun _ => Except.error "boom") "2025-01-01 10:00" "t" "boom").2.2 rfl⟩

end MultiAgent
